import Mathlib

/-!
Verification of the coordination layer of the sqlite worker core
(src/packages/sqlite-worker-core/src/coordination.rs).

The layer elects one context as leader and forwards every follower query
over a broadcast channel, correlating each forwarded request with its
response through a per-context table of pending queries.  The shallow
embedding below translates the message handler installed by
setup_channel_listener, the timeout callback registered by execute_query,
and the synchronous prefix and final interpretation step of execute_query
into executable Lean functions, and proves the frozen claims about them.
-/

/-- Modelled from the spec: the external database engine is consumed as an
opaque operation exec, taking SQL text to a result encoded as text or an
error encoded as text (the crate file database.rs is an external
collaborator; only this contract is relevant). -/
structure SQLiteDatabase where
  exec : String → Except String String

/-- A dynamically typed value travelling through the promise machinery
(the wasm JsValue).  The message handler only ever settles promises with
string values, so one constructor for strings and one for every other
shape of value suffices. -/
inductive JsValue where
  | str (s : String)
  | nonString
  deriving DecidableEq, Repr

/-- The as_string conversion on a dynamically typed value: some for a
string value, none for anything else. -/
def JsValue.as_string : JsValue → Option String
  | JsValue.str s => some s
  | JsValue.nonString => none

/-- Modelled from the spec: the message envelope of messages.rs, a tagged
union with exactly three variants - QueryRequest with id and sql,
QueryResponse with id and optional result or error text, and the
leadership announcement NewLeader. -/
inductive ChannelMessage where
  | QueryRequest (query_id : String) (sql : String)
  | QueryResponse (query_id : String) (result : Option String) (error : Option String)
  | NewLeader (leader_id : String)
  deriving DecidableEq, Repr

/-- Modelled from the spec: a PendingRequest of messages.rs holds the
resolve and reject continuations of the promise created by a follower
call of execute_query.  The pair is represented by the identity of the
promise that these continuations settle. -/
structure PendingQuery where
  promise : Nat
  deriving DecidableEq, Repr

/-- A continuation firing: the resolve or reject of a given promise is
called with a given value.  These are the observable effects of the
message handler and of the timeout callback. -/
inductive Event where
  | resolve (promise : Nat) (value : JsValue)
  | reject (promise : Nat) (value : JsValue)
  deriving DecidableEq, Repr

/-- The promise a continuation firing settles. -/
def Event.promiseOf : Event → Nat
  | Event.resolve q _ => q
  | Event.reject q _ => q

/-- The per-context state of coordination.rs that the handlers read and
write: the leadership flag, the optional database handle, and the
correlation table from query id to pending continuation.  The HashMap of
the source is represented as an association list with the lookup, remove
and insert operations below. -/
structure WorkerState where
  is_leader : Bool
  db : Option SQLiteDatabase
  pending_queries : List (String × PendingQuery)

/-- Lookup in the correlation table (HashMap get). -/
def lookupEntry : List (String × PendingQuery) → String → Option PendingQuery
  | [], _ => none
  | e :: m, k => if e.1 = k then some e.2 else lookupEntry m k

/-- Removal from the correlation table (HashMap remove). -/
def removeEntry (m : List (String × PendingQuery)) (k : String) :
    List (String × PendingQuery) :=
  m.filter fun e => decide (e.1 ≠ k)

/-- Insertion into the correlation table (HashMap insert replaces any
entry under the same key). -/
def insertEntry (m : List (String × PendingQuery)) (k : String) (v : PendingQuery) :
    List (String × PendingQuery) :=
  (k, v) :: removeEntry m k

/-- Equality of results is decidable. -/
instance exceptDecEq {ε α : Type} [DecidableEq ε] [DecidableEq α] :
    DecidableEq (Except ε α) := fun x y =>
  match x, y with
  | Except.ok a, Except.ok b =>
    if h : a = b then isTrue (congrArg Except.ok h)
    else isFalse fun hc => h (Except.ok.inj hc)
  | Except.error a, Except.error b =>
    if h : a = b then isTrue (congrArg Except.error h)
    else isFalse fun hc => h (Except.error.inj hc)
  | Except.ok _, Except.error _ => isFalse fun hc => Except.noConfusion hc
  | Except.error _, Except.ok _ => isFalse fun hc => Except.noConfusion hc

/-- Execution against the local database handle, coordination.rs lines
53-58 and 165-170: run exec if the handle is present, otherwise the
initialization error. -/
def leader_exec (db : Option SQLiteDatabase) (sql : String) : Except String String :=
  match db with
  | some database => database.exec sql
  | none => Except.error "Database not initialized"

/-- The response the leader publishes for a routed request,
coordination.rs lines 60-71: the original id with the result text on
success or the error text on failure. -/
def response_for (query_id : String) (result : Except String String) : ChannelMessage :=
  match result with
  | Except.ok res => ChannelMessage.QueryResponse query_id (some res) none
  | Except.error err => ChannelMessage.QueryResponse query_id none (some err)

/-- The onmessage handler installed by setup_channel_listener,
coordination.rs lines 42-97.  The argument none stands for a payload
that failed to deserialize into the envelope.  Returned are the new
state, the messages published on the channel, and the continuation
firings, in order. -/
def handle_message (st : WorkerState) (data : Option ChannelMessage) :
    WorkerState × List ChannelMessage × List Event :=
  match data with
  | none => (st, [], [])
  | some (ChannelMessage.QueryRequest query_id sql) =>
    if st.is_leader then
      (st, [response_for query_id (leader_exec st.db sql)], [])
    else
      (st, [], [])
  | some (ChannelMessage.QueryResponse query_id result error) =>
    match lookupEntry st.pending_queries query_id with
    | some pending =>
      let st2 : WorkerState :=
        { st with pending_queries := removeEntry st.pending_queries query_id }
      match error with
      | some err => (st2, [], [Event.reject pending.promise (JsValue.str err)])
      | none =>
        match result with
        | some res => (st2, [], [Event.resolve pending.promise (JsValue.str res)])
        | none => (st2, [], [])
    | none => (st, [], [])
  | some (ChannelMessage.NewLeader _) => (st, [], [])

/-- The timeout callback registered by execute_query, coordination.rs
lines 192-196: if the entry for the query id is still present, remove it
and reject the timeout promise with the text Query timeout. -/
def handle_timeout (st : WorkerState) (query_id : String) (timeout_promise : Nat) :
    WorkerState × List Event :=
  match lookupEntry st.pending_queries query_id with
  | some _ =>
    ({ st with pending_queries := removeEntry st.pending_queries query_id },
     [Event.reject timeout_promise (JsValue.str "Query timeout")])
  | none => (st, [])

/-- The synchronous prefix of execute_query, coordination.rs lines
163-185.  On the leader it executes locally and returns the result at
once, touching neither the table nor the channel; on a follower it
registers a pending entry for a fresh query id holding the continuations
of the freshly created promise and publishes a QueryRequest, returning
no immediate result.  Components: immediate result, new state,
published message. -/
def execute_query_sync (st : WorkerState) (sql : String) (query_id : String)
    (promise : Nat) :
    Option (Except String String) × WorkerState × Option ChannelMessage :=
  if st.is_leader then
    (some (leader_exec st.db sql), st, none)
  else
    (none,
     { st with pending_queries := insertEntry st.pending_queries query_id ⟨promise⟩ },
     some (ChannelMessage.QueryRequest query_id sql))

/-- An occurrence observed by one context after a follower call has been
registered: either a message event arrives on the channel (none standing
for an unparseable payload), or the timer installed by some call of
execute_query fires, carrying that call's query id and the identity of
its timeout promise. -/
inductive Occ where
  | recv (data : Option ChannelMessage)
  | timeoutFire (query_id : String) (timeout_promise : Nat)
  deriving DecidableEq, Repr

/-- One occurrence processed against the context state. -/
def stepOcc (st : WorkerState) : Occ → WorkerState × List ChannelMessage × List Event
  | Occ.recv d => handle_message st d
  | Occ.timeoutFire query_id timeout_promise =>
    let r := handle_timeout st query_id timeout_promise
    (r.1, [], r.2)

/-- Final state, published messages and continuation firings of a
sequence of occurrences. -/
structure RunResult where
  state : WorkerState
  outputs : List ChannelMessage
  events : List Event

/-- Process a sequence of occurrences in order. -/
def run (st : WorkerState) : List Occ → RunResult
  | [] => ⟨st, [], []⟩
  | o :: os =>
    let s := stepOcc st o
    let r := run s.1 os
    ⟨r.state, s.2.1 ++ r.outputs, s.2.2 ++ r.events⟩

/-- A continuation firing settles the race between a follower call's
query promise p and its timeout promise tp exactly when it targets one
of the two. -/
def isCallSettle (p tp : Nat) (ev : Event) : Bool :=
  decide (Event.promiseOf ev = p) || decide (Event.promiseOf ev = tp)

/-- The settlement of Promise.race of the query promise p and the
timeout promise tp over a list of continuation firings in order: the
first firing on either promise wins, any later firing has no effect. -/
def race_outcome (p tp : Nat) : List Event → Option (Except JsValue JsValue)
  | [] => none
  | ev :: rest =>
    match ev with
    | Event.resolve q v =>
      if q = p ∨ q = tp then some (Except.ok v) else race_outcome p tp rest
    | Event.reject q v =>
      if q = p ∨ q = tp then some (Except.error v) else race_outcome p tp rest

/-- Modelled from the external wasm_bindgen dependency: the Debug
rendering of a string escapes quote, backslash and the common control
characters and wraps the text in quotes, as the Rust Debug instance of
str does.  Only used through js_debug_format below. -/
def rust_debug_escape_char (c : Char) : String :=
  if c = '"' then "\\\""
  else if c = '\\' then "\\\\"
  else if c = '\n' then "\\n"
  else if c = '\t' then "\\t"
  else if c = '\r' then "\\r"
  else String.singleton c

/-- Rust Debug rendering of a string: quotes around the escaped text. -/
def rust_debug_string (s : String) : String :=
  "\"" ++ String.join (s.data.map rust_debug_escape_char) ++ "\""

/-- Modelled from the external wasm_bindgen dependency: the Debug
instance of JsValue prints the text JsValue followed by a parenthesized
description of the value; for a string value the description is the Rust
Debug rendering of the string.  This is what format with the debug
specifier produces on coordination.rs line 224. -/
def js_debug_format : JsValue → String
  | JsValue.str s => "JsValue(" ++ rust_debug_string s ++ ")"
  | JsValue.nonString => "JsValue(undefined)"

/-- The interpretation of the settled race at the end of execute_query,
coordination.rs lines 216-225: a fulfilled value that is a string yields
it as the successful result, a fulfilled value of any other shape yields
the error Invalid response, and a rejection yields the Debug rendering
of the rejection value as the error text. -/
def interpret_race_result (r : Except JsValue JsValue) : Except String String :=
  match r with
  | Except.ok val =>
    match val.as_string with
    | some s => Except.ok s
    | none => Except.error "Invalid response"
  | Except.error e => Except.error (js_debug_format e)

/-- The visible result of a follower call of execute_query whose query
promise is p and whose timeout promise is tp, over the continuation
firings of a run: none while the race is unsettled, otherwise the
interpretation of the first settlement. -/
def follower_result (p tp : Nat) (events : List Event) :
    Option (Except String String) :=
  (race_outcome p tp events).map interpret_race_result

/-- For the analysis of one follower call with query id query_id, query
promise p and timeout promise tp: every other entry of the correlation
table holds neither of the call's promises, and the entry under the
call's id, when present, holds exactly the query promise.  This holds in
reality because ids are fresh uuids and each call creates its own two
promises. -/
def entriesOk (query_id : String) (p tp : Nat)
    (m : List (String × PendingQuery)) : Prop :=
  ∀ e ∈ m, (e.1 = query_id → e.2.promise = p) ∧
    (e.1 ≠ query_id → e.2.promise ≠ p ∧ e.2.promise ≠ tp)

/-- Occurrences compatible with the call under analysis: a QueryResponse
for the call's id carries a result or an error, the call's own timer
carries the call's timeout promise, and the timer of any other call
rejects neither of the call's promises. -/
def goodOcc (query_id : String) (p tp : Nat) : Occ → Bool
  | Occ.recv (some (ChannelMessage.QueryResponse q r e)) =>
    !(decide (q = query_id)) || r.isSome || e.isSome
  | Occ.recv _ => true
  | Occ.timeoutFire q tp2 =>
    if q = query_id then decide (tp2 = tp)
    else !(decide (tp2 = p)) && !(decide (tp2 = tp))

/-- The occurrences able to settle the call under analysis: a
QueryResponse carrying its id, or the firing of its timer. -/
def isSettler (query_id : String) : Occ → Bool
  | Occ.recv (some (ChannelMessage.QueryResponse q _ _)) => decide (q = query_id)
  | Occ.timeoutFire q _ => decide (q = query_id)
  | _ => false

/-- Number of continuation firings of a run that settle the race of the
call under analysis. -/
def settleCount (p tp : Nat) (evs : List Event) : Nat :=
  (evs.filter (isCallSettle p tp)).length

/-- Concrete scenario: a follower registers query q1 with query promise
0 and timeout promise 1 and publishes the request; no response arrives
within the window, the timer fires, and a response arrives only
afterwards. -/
def timeout_scenario : RunResult :=
  run (execute_query_sync ⟨false, none, []⟩ "SELECT 1" "q1" 0).2.1
    [Occ.timeoutFire "q1" 1,
     Occ.recv (some (ChannelMessage.QueryResponse "q1" (some "late") none))]

/-- Concrete scenario: a follower registers query q1 with query promise
0 and timeout promise 1 and the leader answers with an engine error. -/
def engine_error_scenario : RunResult :=
  run (execute_query_sync ⟨false, none, []⟩ "SELCT 1" "q1" 0).2.1
    [Occ.recv (some (ChannelMessage.QueryResponse "q1" none
      (some "syntax error near SELCT")))]

/-- Concrete scenario: a follower has query q1 pending with query
promise 0 and timeout promise 1; a response matching the id but carrying
neither result nor error arrives, then the timer fires, then a well
formed response arrives. -/
def empty_response_scenario : RunResult :=
  run ⟨false, none, [("q1", ⟨0⟩)]⟩
    [Occ.recv (some (ChannelMessage.QueryResponse "q1" none none)),
     Occ.timeoutFire "q1" 1,
     Occ.recv (some (ChannelMessage.QueryResponse "q1" (some "r") none))]

/-! ## Basic facts about the correlation table operations -/

theorem lookupEntry_removeEntry_self (m : List (String × PendingQuery)) (k : String) :
    lookupEntry (removeEntry m k) k = none := by
  induction m with
  | nil => rfl
  | cons e m ih =>
    by_cases h : e.1 = k
    · simpa [removeEntry, List.filter_cons, h] using ih
    · simpa [removeEntry, List.filter_cons, lookupEntry, h] using ih

theorem lookupEntry_removeEntry_ne (m : List (String × PendingQuery))
    {k k2 : String} (h : k2 ≠ k) :
    lookupEntry (removeEntry m k) k2 = lookupEntry m k2 := by
  induction m with
  | nil => rfl
  | cons e m ih =>
    have h2 : ¬ (k = k2) := fun hc => h hc.symm
    by_cases he : e.1 = k
    · simpa [removeEntry, List.filter_cons, lookupEntry, he, h2] using ih
    · by_cases he2 : e.1 = k2
      · simp [removeEntry, List.filter_cons, lookupEntry, he, he2, h]
      · simpa [removeEntry, List.filter_cons, lookupEntry, he, he2] using ih

/-! ## Claims about the leader path and the message handler -/

/-- C1: a call of execute_query in a context whose leadership flag is
true returns exactly the result of the handle execution when the handle
is present and the error Database not initialized when it is absent, and
the correlation table is neither read (the result is independent of it)
nor modified (the state is returned unchanged). -/
theorem execute_query_leader_local (st : WorkerState) (sql query_id : String)
    (promise : Nat) (h : st.is_leader = true) :
    execute_query_sync st sql query_id promise =
      (some (leader_exec st.db sql), st, none)
    ∧ (st.db = none → leader_exec st.db sql = Except.error "Database not initialized")
    ∧ (∀ d, st.db = some d → leader_exec st.db sql = d.exec sql)
    ∧ (∀ pq, execute_query_sync { st with pending_queries := pq } sql query_id promise
        = (some (leader_exec st.db sql), { st with pending_queries := pq }, none)) := by
  refine ⟨?_, ?_, ?_, ?_⟩
  · simp [execute_query_sync, h]
  · intro hdb; simp [leader_exec, hdb]
  · intro d hdb; simp [leader_exec, hdb]
  · intro pq; simp [execute_query_sync, h, leader_exec]

/-- Witness for C1: a concrete leader whose handle is still absent. -/
theorem execute_query_leader_local_witness :
    execute_query_sync ⟨true, none, []⟩ "SELECT 1" "q1" 0 =
      (some (Except.error "Database not initialized"), ⟨true, none, []⟩, none) := by
  have h := execute_query_leader_local ⟨true, none, []⟩ "SELECT 1" "q1" 0 rfl
  simpa [h.2.1 rfl] using h.1

/-- C4: a received QueryRequest is ignored by a context whose leadership
flag is false, and a context whose flag is true publishes exactly one
QueryResponse tagged with the original id, carrying the result text of
the engine on success, its error text on failure, and the error Database
not initialized when the handle is absent; the state is unchanged and no
continuation fires. -/
theorem query_request_leader_response (st : WorkerState) (query_id sql : String) :
    (st.is_leader = false →
      handle_message st (some (ChannelMessage.QueryRequest query_id sql)) = (st, [], []))
    ∧ (st.is_leader = true →
      handle_message st (some (ChannelMessage.QueryRequest query_id sql)) =
        (st, [response_for query_id (leader_exec st.db sql)], [])
      ∧ (∀ res, leader_exec st.db sql = Except.ok res →
          response_for query_id (leader_exec st.db sql) =
            ChannelMessage.QueryResponse query_id (some res) none)
      ∧ (∀ err, leader_exec st.db sql = Except.error err →
          response_for query_id (leader_exec st.db sql) =
            ChannelMessage.QueryResponse query_id none (some err))
      ∧ (st.db = none →
          leader_exec st.db sql = Except.error "Database not initialized")) := by
  constructor
  · intro h; simp [handle_message, h]
  · intro h
    refine ⟨by simp [handle_message, h], ?_, ?_, ?_⟩
    · intro res hres; simp [response_for, hres]
    · intro err herr; simp [response_for, herr]
    · intro hdb; simp [leader_exec, hdb]

/-- Witness for C4: a concrete leader with an absent handle answers a
routed request with exactly one response carrying the initialization
error. -/
theorem query_request_leader_response_witness :
    handle_message ⟨true, none, []⟩
        (some (ChannelMessage.QueryRequest "q1" "SELECT 1")) =
      (⟨true, none, []⟩,
       [ChannelMessage.QueryResponse "q1" none (some "Database not initialized")],
       []) := by
  have h := (query_request_leader_response ⟨true, none, []⟩ "q1" "SELECT 1").2 rfl
  have hdb := h.2.2.2 rfl
  have hresp := h.2.2.1 "Database not initialized" hdb
  rw [h.1, hresp]

/-- C5: a received QueryResponse whose id is absent from the correlation
table of the observing context leaves the whole state unchanged,
publishes nothing and fires no continuation. -/
theorem query_response_unknown_id_inert (st : WorkerState) (query_id : String)
    (result error : Option String)
    (h : lookupEntry st.pending_queries query_id = none) :
    handle_message st (some (ChannelMessage.QueryResponse query_id result error)) =
      (st, [], []) := by
  simp [handle_message, h]

/-- Witness for C5: a response for an unknown id against a table holding
a different pending entry. -/
theorem query_response_unknown_id_inert_witness :
    handle_message ⟨false, none, [("q1", ⟨7⟩)]⟩
        (some (ChannelMessage.QueryResponse "q2" (some "r") none)) =
      (⟨false, none, [("q1", ⟨7⟩)]⟩, [], []) :=
  query_response_unknown_id_inert ⟨false, none, [("q1", ⟨7⟩)]⟩ "q2"
    (some "r") none (by decide)

/-- C6: with two pending requests registered under distinct ids and
distinct promises, a QueryResponse carrying the first id settles only
the promise of the first pending request, never the promise of the
second, and the entry of the second stays in the table untouched. -/
theorem query_response_no_swap (st : WorkerState) (qid1 qid2 : String)
    (result error : Option String) (p1 p2 : PendingQuery)
    (h1 : lookupEntry st.pending_queries qid1 = some p1)
    (h2 : lookupEntry st.pending_queries qid2 = some p2)
    (hne : qid1 ≠ qid2) (hp : p1.promise ≠ p2.promise) :
    (∀ ev ∈ (handle_message st
        (some (ChannelMessage.QueryResponse qid1 result error))).2.2,
        Event.promiseOf ev = p1.promise ∧ Event.promiseOf ev ≠ p2.promise)
    ∧ lookupEntry (handle_message st
        (some (ChannelMessage.QueryResponse qid1 result error))).1.pending_queries
        qid2 = some p2 := by
  have hstate : lookupEntry (removeEntry st.pending_queries qid1) qid2 = some p2 := by
    rw [lookupEntry_removeEntry_ne st.pending_queries (Ne.symm hne)]; exact h2
  cases error with
  | some err =>
    refine ⟨?_, ?_⟩
    · intro ev hev
      simp [handle_message, h1] at hev
      subst hev
      exact ⟨rfl, hp⟩
    · simpa [handle_message, h1] using hstate
  | none =>
    cases result with
    | some res =>
      refine ⟨?_, ?_⟩
      · intro ev hev
        simp [handle_message, h1] at hev
        subst hev
        exact ⟨rfl, hp⟩
      · simpa [handle_message, h1] using hstate
    | none =>
      refine ⟨?_, ?_⟩
      · intro ev hev
        simp [handle_message, h1] at hev
      · simpa [handle_message, h1] using hstate

/-- Witness for C6: two concrete pending entries; the response for the
first settles only promise 1 and keeps the entry of the second. -/
theorem query_response_no_swap_witness :
    (∀ ev ∈ (handle_message ⟨false, none, [("q1", ⟨1⟩), ("q2", ⟨2⟩)]⟩
        (some (ChannelMessage.QueryResponse "q1" (some "r") none))).2.2,
        Event.promiseOf ev = 1 ∧ Event.promiseOf ev ≠ 2)
    ∧ lookupEntry (handle_message ⟨false, none, [("q1", ⟨1⟩), ("q2", ⟨2⟩)]⟩
        (some (ChannelMessage.QueryResponse "q1" (some "r") none))).1.pending_queries
        "q2" = some ⟨2⟩ :=
  query_response_no_swap ⟨false, none, [("q1", ⟨1⟩), ("q2", ⟨2⟩)]⟩ "q1" "q2"
    (some "r") none ⟨1⟩ ⟨2⟩ (by decide) (by decide) (by decide) (by decide)

/-- C8: a message that fails to parse as one of the three envelope
variants is silently dropped: no response is published, no continuation
fires, and the leadership flag, the handle and every correlation table
entry are unchanged. -/
theorem unparseable_message_dropped (st : WorkerState) :
    handle_message st none = (st, [], []) := rfl

/-- C9: a QueryResponse matching a pending id and carrying both an error
and a result fires the reject continuation with the error text; the
resolve continuation never fires, and the entry is removed. -/
theorem error_takes_precedence (st : WorkerState) (query_id res err : String)
    (p : PendingQuery) (h : lookupEntry st.pending_queries query_id = some p) :
    (handle_message st
        (some (ChannelMessage.QueryResponse query_id (some res) (some err)))).2.2 =
      [Event.reject p.promise (JsValue.str err)]
    ∧ lookupEntry (handle_message st
        (some (ChannelMessage.QueryResponse query_id (some res) (some err)))).1.pending_queries
        query_id = none := by
  constructor
  · simp [handle_message, h]
  · simp [handle_message, h, lookupEntry_removeEntry_self]

/-- Witness for C9: a concrete response carrying both fields rejects
with the error text and removes the entry. -/
theorem error_takes_precedence_witness :
    (handle_message ⟨false, none, [("q1", ⟨3⟩)]⟩
        (some (ChannelMessage.QueryResponse "q1" (some "rows") (some "boom")))).2.2 =
      [Event.reject 3 (JsValue.str "boom")]
    ∧ lookupEntry (handle_message ⟨false, none, [("q1", ⟨3⟩)]⟩
        (some (ChannelMessage.QueryResponse "q1" (some "rows") (some "boom")))).1.pending_queries
        "q1" = none :=
  error_takes_precedence ⟨false, none, [("q1", ⟨3⟩)]⟩ "q1" "rows" "boom" ⟨3⟩ (by decide)

/-- C10: the interpretation of the settled race at the end of
execute_query returns the resolved value itself when it is the string s,
and the error Invalid response when the resolved value is not a
string. -/
theorem invalid_response_branch :
    (∀ s, interpret_race_result (Except.ok (JsValue.str s)) = Except.ok s)
    ∧ (∀ v : JsValue, v.as_string = none →
        interpret_race_result (Except.ok v) = Except.error "Invalid response") := by
  constructor
  · intro s; rfl
  · intro v hv; simp [interpret_race_result, hv]

/-- Witness for C10: a string value passes through, a non-string value
yields the error Invalid response. -/
theorem invalid_response_branch_witness :
    interpret_race_result (Except.ok (JsValue.str "rows")) = Except.ok "rows"
    ∧ interpret_race_result (Except.ok JsValue.nonString) =
        Except.error "Invalid response" :=
  ⟨invalid_response_branch.1 "rows", invalid_response_branch.2 JsValue.nonString rfl⟩

/-! ## The follower timeout and the Debug wrapping of rejection values -/

/-- C2 divergence record: with query q1 pending (query promise 0,
timeout promise 1) and no response before the window elapses, the timer
firing removes the entry and rejects exactly once with the text Query
timeout, a later response for the id has no effect - but the error text
execute_query returns is the Debug rendering of the rejection value,
JsValue around the quoted text, not the bare text Query timeout. -/
theorem query_timeout_debug_wrapped :
    timeout_scenario.events = [Event.reject 1 (JsValue.str "Query timeout")]
    ∧ lookupEntry timeout_scenario.state.pending_queries "q1" = none
    ∧ follower_result 0 1 timeout_scenario.events =
        some (Except.error "JsValue(\"Query timeout\")")
    ∧ follower_result 0 1 timeout_scenario.events ≠
        some (Except.error "Query timeout") := by
  decide

/-- C7 divergence record: a follower whose forwarded request the engine
rejects sees its reject continuation fire with the engine text verbatim,
but execute_query returns the Debug rendering of the rejection value,
JsValue around the quoted engine text, not the engine text itself. -/
theorem engine_error_debug_wrapped :
    engine_error_scenario.events =
      [Event.reject 0 (JsValue.str "syntax error near SELCT")]
    ∧ follower_result 0 1 engine_error_scenario.events =
        some (Except.error "JsValue(\"syntax error near SELCT\")")
    ∧ follower_result 0 1 engine_error_scenario.events ≠
        some (Except.error "syntax error near SELCT") := by
  decide

/-- C3 counterexample: a QueryResponse matching the pending id but
carrying neither result nor error removes the entry while firing no
continuation, and afterwards neither the timer firing nor any further
response can fire one - the pending request is dropped with neither
continuation having fired and neither able to fire later, so the race
never settles. -/
theorem pending_request_dropped_unsettled :
    empty_response_scenario.events = []
    ∧ lookupEntry empty_response_scenario.state.pending_queries "q1" = none
    ∧ follower_result 0 1 empty_response_scenario.events = none := by
  decide

/-! ## Exactly-once settlement of a pending request -/

theorem run_cons (st : WorkerState) (o : Occ) (os : List Occ) :
    run st (o :: os) =
      ⟨(run (stepOcc st o).1 os).state,
       (stepOcc st o).2.1 ++ (run (stepOcc st o).1 os).outputs,
       (stepOcc st o).2.2 ++ (run (stepOcc st o).1 os).events⟩ := rfl

theorem settleCount_append (p tp : Nat) (a b : List Event) :
    settleCount p tp (a ++ b) = settleCount p tp a + settleCount p tp b := by
  simp [settleCount, List.filter_append]

theorem lookupEntry_mem {m : List (String × PendingQuery)} {k : String}
    {v : PendingQuery} (h : lookupEntry m k = some v) : (k, v) ∈ m := by
  induction m with
  | nil => simp [lookupEntry] at h
  | cons e m ih =>
    obtain ⟨e1, e2⟩ := e
    by_cases he : e1 = k
    · simp [lookupEntry, he] at h
      subst he
      subst h
      exact List.mem_cons_self _ _
    · simp [lookupEntry, he] at h
      exact List.mem_cons_of_mem _ (ih h)

theorem entriesOk_removeEntry {query_id : String} {p tp : Nat}
    {m : List (String × PendingQuery)} (h : entriesOk query_id p tp m) (k : String) :
    entriesOk query_id p tp (removeEntry m k) :=
  fun e he => h e (List.mem_of_mem_filter he)

theorem entriesOk_lookup_self {query_id : String} {p tp : Nat}
    {m : List (String × PendingQuery)} (h : entriesOk query_id p tp m)
    {v : PendingQuery} (hv : lookupEntry m query_id = some v) : v = ⟨p⟩ := by
  have hp := (h (query_id, v) (lookupEntry_mem hv)).1 rfl
  cases v
  exact congrArg PendingQuery.mk hp

theorem entriesOk_lookup_other {query_id : String} {p tp : Nat}
    {m : List (String × PendingQuery)} (h : entriesOk query_id p tp m)
    {k : String} {v : PendingQuery} (hv : lookupEntry m k = some v)
    (hk : k ≠ query_id) : v.promise ≠ p ∧ v.promise ≠ tp :=
  (h (k, v) (lookupEntry_mem hv)).2 hk

/-- One occurrence, seen from the call under analysis: it preserves the
promise discipline of the table; with the entry registered, a settler
occurrence fires exactly one settling continuation and removes the
entry, and a non-settler occurrence fires none and keeps the entry; with
the entry absent, no settling continuation can fire and the entry stays
absent. -/
theorem stepOcc_call (query_id : String) (p tp : Nat) (st : WorkerState) (o : Occ)
    (hok : entriesOk query_id p tp st.pending_queries)
    (hgood : goodOcc query_id p tp o = true) :
    entriesOk query_id p tp (stepOcc st o).1.pending_queries
    ∧ (lookupEntry st.pending_queries query_id = some ⟨p⟩ →
        (isSettler query_id o = true →
          settleCount p tp (stepOcc st o).2.2 = 1
          ∧ lookupEntry (stepOcc st o).1.pending_queries query_id = none)
        ∧ (isSettler query_id o = false →
          settleCount p tp (stepOcc st o).2.2 = 0
          ∧ lookupEntry (stepOcc st o).1.pending_queries query_id = some ⟨p⟩))
    ∧ (lookupEntry st.pending_queries query_id = none →
        settleCount p tp (stepOcc st o).2.2 = 0
        ∧ lookupEntry (stepOcc st o).1.pending_queries query_id = none) := by
  cases o with
  | recv data =>
    cases data with
    | none =>
      refine ⟨hok, fun hreg => ⟨?_, fun _ => ⟨rfl, hreg⟩⟩, fun hnone => ⟨rfl, hnone⟩⟩
      intro hs
      simp [isSettler] at hs
    | some msg =>
      cases msg with
      | NewLeader lid =>
        refine ⟨hok, fun hreg => ⟨?_, fun _ => ⟨rfl, hreg⟩⟩, fun hnone => ⟨rfl, hnone⟩⟩
        intro hs
        simp [isSettler] at hs
      | QueryRequest q sql =>
        have hst1 : (stepOcc st (Occ.recv (some (ChannelMessage.QueryRequest q sql)))).1 = st := by
          by_cases h : st.is_leader <;> simp [stepOcc, handle_message, h]
        have hev1 : (stepOcc st (Occ.recv (some (ChannelMessage.QueryRequest q sql)))).2.2 = [] := by
          by_cases h : st.is_leader <;> simp [stepOcc, handle_message, h]
        refine ⟨?_, fun hreg => ⟨?_, fun _ => ?_⟩, fun hnone => ?_⟩
        · rw [hst1]; exact hok
        · intro hs; simp [isSettler] at hs
        · rw [hev1, hst1]; exact ⟨rfl, hreg⟩
        · rw [hev1, hst1]; exact ⟨rfl, hnone⟩
      | QueryResponse q r e =>
        cases hlq : lookupEntry st.pending_queries q with
        | none =>
          have hstep : stepOcc st (Occ.recv (some (ChannelMessage.QueryResponse q r e))) =
              (st, [], []) := by
            simp [stepOcc, handle_message, hlq]
          rw [hstep]
          refine ⟨hok, fun hreg => ⟨?_, fun _ => ⟨rfl, hreg⟩⟩, fun hnone => ⟨rfl, hnone⟩⟩
          intro hs
          simp [isSettler] at hs
          rw [hs] at hlq
          rw [hreg] at hlq
          exact Option.noConfusion hlq
        | some pend =>
          by_cases hq : q = query_id
          · subst hq
            have hpend : pend = ⟨p⟩ := entriesOk_lookup_self hok hlq
            subst hpend
            cases e with
            | some err =>
              have hstep : stepOcc st (Occ.recv (some (ChannelMessage.QueryResponse q r (some err)))) =
                  ({ st with pending_queries := removeEntry st.pending_queries q }, [],
                   [Event.reject p (JsValue.str err)]) := by
                simp [stepOcc, handle_message, hlq]
              refine ⟨?_, fun hreg => ⟨fun _ => ?_, ?_⟩, fun hnone => ?_⟩
              · rw [hstep]; exact entriesOk_removeEntry hok q
              · rw [hstep]
                constructor
                · simp [settleCount, isCallSettle, Event.promiseOf, List.filter]
                · exact lookupEntry_removeEntry_self st.pending_queries q
              · intro hs; simp [isSettler] at hs
              · rw [hnone] at hlq; exact Option.noConfusion hlq
            | none =>
              cases r with
              | some res =>
                have hstep : stepOcc st (Occ.recv (some (ChannelMessage.QueryResponse q (some res) none))) =
                    ({ st with pending_queries := removeEntry st.pending_queries q }, [],
                     [Event.resolve p (JsValue.str res)]) := by
                  simp [stepOcc, handle_message, hlq]
                refine ⟨?_, fun hreg => ⟨fun _ => ?_, ?_⟩, fun hnone => ?_⟩
                · rw [hstep]; exact entriesOk_removeEntry hok q
                · rw [hstep]
                  constructor
                  · simp [settleCount, isCallSettle, Event.promiseOf, List.filter]
                  · exact lookupEntry_removeEntry_self st.pending_queries q
                · intro hs; simp [isSettler] at hs
                · rw [hnone] at hlq; exact Option.noConfusion hlq
              | none =>
                simp [goodOcc] at hgood
          · have hpp := entriesOk_lookup_other hok hlq hq
            have hlro := lookupEntry_removeEntry_ne st.pending_queries (Ne.symm hq)
            have hst1 : (stepOcc st (Occ.recv (some (ChannelMessage.QueryResponse q r e)))).1 =
                { st with pending_queries := removeEntry st.pending_queries q } := by
              cases e with
              | some err => simp [stepOcc, handle_message, hlq]
              | none => cases r <;> simp [stepOcc, handle_message, hlq]
            have hc0 : settleCount p tp (stepOcc st (Occ.recv (some (ChannelMessage.QueryResponse q r e)))).2.2 = 0 := by
              cases e with
              | some err =>
                simp [stepOcc, handle_message, hlq, settleCount, isCallSettle,
                  Event.promiseOf, List.filter, hpp.1, hpp.2]
              | none =>
                cases r <;>
                  simp [stepOcc, handle_message, hlq, settleCount, isCallSettle,
                    Event.promiseOf, List.filter, hpp.1, hpp.2]
            refine ⟨?_, fun hreg => ⟨?_, fun _ => ?_⟩, fun hnone => ?_⟩
            · rw [hst1]; exact entriesOk_removeEntry hok q
            · intro hs; simp [isSettler, hq] at hs
            · refine ⟨hc0, ?_⟩
              rw [hst1]
              show lookupEntry (removeEntry st.pending_queries q) query_id = some ⟨p⟩
              rw [hlro]; exact hreg
            · refine ⟨hc0, ?_⟩
              rw [hst1]
              show lookupEntry (removeEntry st.pending_queries q) query_id = none
              rw [hlro]; exact hnone
  | timeoutFire q tp2 =>
    cases hlq : lookupEntry st.pending_queries q with
    | none =>
      have hstep : stepOcc st (Occ.timeoutFire q tp2) = (st, [], []) := by
        simp [stepOcc, handle_timeout, hlq]
      rw [hstep]
      refine ⟨hok, fun hreg => ⟨?_, fun _ => ⟨rfl, hreg⟩⟩, fun hnone => ⟨rfl, hnone⟩⟩
      intro hs
      simp [isSettler] at hs
      rw [hs] at hlq
      rw [hreg] at hlq
      exact Option.noConfusion hlq
    | some pend =>
      have hstep : stepOcc st (Occ.timeoutFire q tp2) =
          ({ st with pending_queries := removeEntry st.pending_queries q }, [],
           [Event.reject tp2 (JsValue.str "Query timeout")]) := by
        simp [stepOcc, handle_timeout, hlq]
      by_cases hq : q = query_id
      · subst hq
        have htp : tp2 = tp := by simpa [goodOcc] using hgood
        subst htp
        refine ⟨?_, fun hreg => ⟨fun _ => ?_, ?_⟩, fun hnone => ?_⟩
        · rw [hstep]; exact entriesOk_removeEntry hok q
        · rw [hstep]
          constructor
          · simp [settleCount, isCallSettle, Event.promiseOf, List.filter]
          · exact lookupEntry_removeEntry_self st.pending_queries q
        · intro hs; simp [isSettler] at hs
        · rw [hnone] at hlq; exact Option.noConfusion hlq
      · have hgood2 : tp2 ≠ p ∧ tp2 ≠ tp := by simpa [goodOcc, hq] using hgood
        have hlro := lookupEntry_removeEntry_ne st.pending_queries (Ne.symm hq)
        refine ⟨?_, fun hreg => ⟨?_, fun _ => ?_⟩, fun hnone => ?_⟩
        · rw [hstep]; exact entriesOk_removeEntry hok q
        · intro hs; simp [isSettler, hq] at hs
        · rw [hstep]
          constructor
          · simp [settleCount, isCallSettle, Event.promiseOf, List.filter,
              hgood2.1, hgood2.2]
          · show lookupEntry (removeEntry st.pending_queries q) query_id = some ⟨p⟩
            rw [hlro]; exact hreg
        · rw [hstep]
          constructor
          · simp [settleCount, isCallSettle, Event.promiseOf, List.filter,
              hgood2.1, hgood2.2]
          · show lookupEntry (removeEntry st.pending_queries q) query_id = none
            rw [hlro]; exact hnone

/-- Trace analysis of one registered call: over any sequence of
compatible occurrences, the table keeps its promise discipline; starting
with the entry registered, the number of continuation firings that
settle the call is one exactly when the sequence contains a settler (a
matching response or the call's timer) and zero otherwise, the entry
being removed in the first case and retained in the second; starting
with the entry absent, no settling continuation ever fires. -/
theorem run_call (query_id : String) (p tp : Nat) :
    ∀ (os : List Occ) (st : WorkerState),
      entriesOk query_id p tp st.pending_queries →
      (∀ o ∈ os, goodOcc query_id p tp o = true) →
      entriesOk query_id p tp (run st os).state.pending_queries
      ∧ (lookupEntry st.pending_queries query_id = some ⟨p⟩ →
          settleCount p tp (run st os).events =
            (if os.any (isSettler query_id) = true then 1 else 0)
          ∧ lookupEntry (run st os).state.pending_queries query_id =
            (if os.any (isSettler query_id) = true then none else some ⟨p⟩))
      ∧ (lookupEntry st.pending_queries query_id = none →
          settleCount p tp (run st os).events = 0
          ∧ lookupEntry (run st os).state.pending_queries query_id = none) := by
  intro os
  induction os with
  | nil =>
    intro st hok hgood
    refine ⟨hok, fun hreg => ⟨?_, ?_⟩, fun hnone => ⟨?_, ?_⟩⟩
    · simp [run, settleCount]
    · simpa [run] using hreg
    · simp [run, settleCount]
    · simpa [run] using hnone
  | cons o os ih =>
    intro st hok hgood
    have hgood_head := hgood o (List.mem_cons_self o os)
    have hgood_tail : ∀ x ∈ os, goodOcc query_id p tp x = true :=
      fun x hx => hgood x (List.mem_cons_of_mem o hx)
    obtain ⟨s1, s2, s3⟩ := stepOcc_call query_id p tp st o hok hgood_head
    obtain ⟨r1, r2, r3⟩ := ih (stepOcc st o).1 s1 hgood_tail
    refine ⟨?_, ?_, ?_⟩
    · simpa [run_cons] using r1
    · intro hreg
      obtain ⟨s2t, s2f⟩ := s2 hreg
      cases hsettle : isSettler query_id o with
      | true =>
        obtain ⟨hc1, hl1⟩ := s2t hsettle
        obtain ⟨hc2, hl2⟩ := r3 hl1
        constructor
        · simp [run_cons, settleCount_append, hc1, hc2, List.any_cons, hsettle]
        · simp [run_cons, hl2, List.any_cons, hsettle]
      | false =>
        obtain ⟨hc1, hl1⟩ := s2f hsettle
        obtain ⟨hc2, hl2⟩ := r2 hl1
        constructor
        · simp [run_cons, settleCount_append, hc1, hc2, List.any_cons, hsettle]
        · simp [run_cons, hl2, List.any_cons, hsettle]
    · intro hnone
      obtain ⟨hc1, hl1⟩ := s3 hnone
      obtain ⟨hc2, hl2⟩ := r3 hl1
      constructor
      · simp [run_cons, settleCount_append, hc1, hc2]
      · simp [run_cons, hl2]

/-- C3 as amended: for a pending request registered under a fresh id
with its two fresh promises, over any sequence of occurrences in which
every response matching the id carries a result or an error, in which
the call's own timer fires (as the platform guarantees), and in which
other calls use other promises, exactly one settling continuation fires
- a resolve or reject triggered by a matching response or by the timer -
and the table entry is removed by the end of the sequence. -/
theorem pending_request_settles_exactly_once
    (st : WorkerState) (os : List Occ) (query_id : String) (p tp : Nat)
    (hok : entriesOk query_id p tp st.pending_queries)
    (hgood : ∀ o ∈ os, goodOcc query_id p tp o = true)
    (hreg : lookupEntry st.pending_queries query_id = some ⟨p⟩)
    (htimer : Occ.timeoutFire query_id tp ∈ os) :
    (∃ ev, (run st os).events.filter (isCallSettle p tp) = [ev])
    ∧ lookupEntry (run st os).state.pending_queries query_id = none := by
  have hany : os.any (isSettler query_id) = true :=
    List.any_eq_true.mpr ⟨Occ.timeoutFire query_id tp, htimer, by simp [isSettler]⟩
  obtain ⟨-, h2, -⟩ := run_call query_id p tp os st hok hgood
  obtain ⟨hc, hl⟩ := h2 hreg
  rw [hany] at hc hl
  simp only [if_pos rfl] at hc hl
  refine ⟨?_, hl⟩
  simp only [settleCount] at hc
  exact List.length_eq_one.mp hc

/-- Witness for the amended C3: one registered request, its timer fires
with no response ever arriving; exactly one settling continuation fires
and the entry is gone. -/
theorem pending_request_settles_exactly_once_witness :
    (∃ ev, (run ⟨false, none, [("q1", ⟨0⟩)]⟩
        [Occ.timeoutFire "q1" 1]).events.filter (isCallSettle 0 1) = [ev])
    ∧ lookupEntry (run ⟨false, none, [("q1", ⟨0⟩)]⟩
        [Occ.timeoutFire "q1" 1]).state.pending_queries "q1" = none := by
  apply pending_request_settles_exactly_once ⟨false, none, [("q1", ⟨0⟩)]⟩
      [Occ.timeoutFire "q1" 1] "q1" 0 1
  · intro e he
    simp at he
    subst he
    exact ⟨fun _ => rfl, fun h => absurd rfl h⟩
  · intro o ho
    simp at ho
    subst ho
    decide
  · rfl
  · decide
